import Mathlib

/-!
Verification of the Fitness Tracker API (Django REST backend).

Shallow embedding of `src/fitness/models.py`, `src/fitness/serializers.py`
and `src/fitness/views.py`:

* Users are identified by a natural number id.
* `DecimalField(decimal_places=2)` values (distances) are represented as
  natural numbers counting hundredths of a kilometre (the fields carry a
  `MinValueValidator(0)`, so values are non-negative).
* `DateField` values are calendar dates `⟨year, month, day⟩`; comparison of
  calendar dates is chronological, i.e. lexicographic on (year, month, day),
  and where the source subtracts a `timedelta` from a date we convert the
  date to its absolute (serial) day number, using the standard
  days-from-civil computation.
* A database table is a list of rows; Django querysets become list
  filtering, `update_or_create` becomes an upsert on the list, the
  `OrderingFilter` / `order_by` become `List.mergeSort`.
* A DRF serializer's `validate` becomes a function into `Except`, where
  `Except.error` carries the per-field message dictionary entry.
-/

/-- A calendar date as stored by Django's `DateField`. -/
structure Date where
  year : Nat
  month : Nat
  day : Nat
deriving DecidableEq, Repr

/-- Chronological comparison of calendar dates (Python `date.__le__`):
lexicographic on (year, month, day). -/
def dateLE (a b : Date) : Bool :=
  a.year < b.year ||
    (a.year == b.year &&
      (a.month < b.month || (a.month == b.month && a.day ≤ b.day)))

/-- A row of the `Activity` model (`models.py` lines 7-37): owning user,
kind, duration in minutes, optional distance in hundredths of a km,
calories burned, and date.  `id` is the database primary key. -/
structure Activity where
  id : Nat
  user : Nat
  activity_type : String
  duration : Nat
  distance : Option Nat
  calories_burned : Nat
  date : Date
deriving DecidableEq, Repr

/-- A row of the `Leaderboard` model (`models.py` lines 39-61). -/
structure Leaderboard where
  user : Nat
  month : Nat
  year : Nat
  total_activities : Nat
  total_distance : Nat
  total_calories_burned : Nat
deriving DecidableEq, Repr

/-! ## ActivitySerializer.validate (`serializers.py` lines 28-51) -/

/-- The data dictionary handed to `ActivitySerializer.validate`: exactly the
fields present in the submitted payload (on a PATCH, only the resent
fields). `data.get(k)` returns `none` when the key is absent. -/
structure ActivityPayload where
  activity_type : Option String
  duration : Option Nat
  distance : Option Nat
  calories_burned : Option Nat
  date : Option Date
deriving DecidableEq, Repr

/-- Python truthiness of `data.get('activity_type')`: falsy when the key is
absent (`None`) or the string is empty. -/
def falsyStr : Option String → Bool
  | none => true
  | some s => s.isEmpty

/-- Embedding of `activity_type in ['Running', 'Cycling', 'Swimming', 'Walking']`
(`serializers.py` line 47). -/
def isDistanceBased (t : Option String) : Bool :=
  t == some "Running" || t == some "Cycling" ||
    t == some "Swimming" || t == some "Walking"

/-- Embedding of `ActivitySerializer.validate` (`serializers.py` lines 28-51): raises a
per-field `ValidationError` (modelled as `Except.error (field, message)`)
- when `activity_type` is falsy (absent or empty),
- when `duration` is `None`,
- when `date` is falsy (a `date` object is never falsy, so: absent),
- when the kind is distance-based and `distance` is `None`;
otherwise returns the data unchanged. -/
def validate (data : ActivityPayload) : Except (String × String) ActivityPayload :=
  if falsyStr data.activity_type then
    .error ("activity_type", "This field is required.")
  else if data.duration.isNone then
    .error ("duration", "This field is required.")
  else if data.date.isNone then
    .error ("date", "This field is required.")
  else if isDistanceBased data.activity_type && data.distance.isNone then
    .error ("distance", "This field is required for distance-based activities.")
  else
    .ok data

/-- Whether a serializer run raised a `ValidationError`. -/
def isValidationError : Except (String × String) ActivityPayload → Bool
  | .error _ => true
  | .ok _ => false

/-! ## Leaderboard.update_leaderboard (`models.py` lines 63-85) -/

/-- Embedding of `Activity.objects.filter(user=user, date__month=month, date__year=year)`
(`models.py` line 70). -/
def matchesMonth (user month year : Nat) (a : Activity) : Bool :=
  a.user == user && a.date.month == month && a.date.year == year

/-- The `(user, month, year)` key of the `unique_together` constraint
(`models.py` line 57). -/
def keyMatch (user month year : Nat) (r : Leaderboard) : Bool :=
  r.user == user && r.month == month && r.year == year

/-- Embedding of `Leaderboard.update_leaderboard(user, month, year)` (`models.py` lines
63-85): aggregate the user's activities for the month/year
(`COUNT`, `SUM(distance)` skipping `NULL`s with `or 0`, `SUM(calories_burned)`
with `or 0`) and upsert (`update_or_create`) the unique
`(user, month, year)` row with the three totals.  The activity table `acts`
and the leaderboard table `lb` are passed explicitly; the result is the new
leaderboard table. -/
def update_leaderboard (lb : List Leaderboard) (acts : List Activity)
    (user month year : Nat) : List Leaderboard :=
  let activities := acts.filter (matchesMonth user month year)
  let total_activities := activities.length
  let total_distance := (activities.filterMap (fun a => a.distance)).sum
  let total_calories_burned := (activities.map (fun a => a.calories_burned)).sum
  if lb.any (keyMatch user month year) then
    lb.map (fun r =>
      if keyMatch user month year r then
        { r with total_activities := total_activities,
                 total_distance := total_distance,
                 total_calories_burned := total_calories_burned }
      else r)
  else
    lb ++ [{ user := user, month := month, year := year,
             total_activities := total_activities,
             total_distance := total_distance,
             total_calories_burned := total_calories_burned }]

/-! ## IsOwnerOrReadOnly and the Activity viewset (`views.py`) -/

/-- HTTP methods reaching the viewsets. -/
inductive Method where
  | GET | HEAD | OPTIONS | POST | PUT | PATCH | DELETE
deriving DecidableEq, Repr

/-- Embedding of `permissions.SAFE_METHODS = ('GET', 'HEAD', 'OPTIONS')`. -/
def isSafeMethod : Method → Bool
  | .GET => true
  | .HEAD => true
  | .OPTIONS => true
  | _ => false

/-- Embedding of `IsOwnerOrReadOnly.has_object_permission` (`views.py` lines 14-23):
safe methods are always allowed; write methods only for the activity's
owner. -/
def has_object_permission (method : Method) (requester : Nat)
    (obj : Activity) : Bool :=
  if isSafeMethod method then true
  else obj.user == requester

/-- Embedding of `ActivityViewSet.get_queryset` (`views.py` lines 55-72): scope to the
requesting user, then optionally filter by `activity_type` (skipped when the
query parameter is absent or falsy/empty), then filter by the inclusive
`date__range` only when BOTH `start_date` and `end_date` are truthy. -/
def activity_get_queryset (acts : List Activity) (requester : Nat)
    (activity_type : Option String) (start_date end_date : Option Date) :
    List Activity :=
  let queryset := acts.filter (fun a => a.user == requester)
  let queryset :=
    match activity_type with
    | some t => if t.isEmpty then queryset
                else queryset.filter (fun a => a.activity_type == t)
    | none => queryset
  match start_date, end_date with
  | some s, some e =>
      queryset.filter (fun a => dateLE s a.date && dateLE a.date e)
  | _, _ => queryset

/-- The activity list as served: `get_queryset` followed by the
`OrderingFilter` default ordering `['-date']` (`views.py` line 53), i.e. a
stable sort descending by date. -/
def activity_list (acts : List Activity) (requester : Nat)
    (activity_type : Option String) (start_date end_date : Option Date) :
    List Activity :=
  (activity_get_queryset acts requester activity_type start_date end_date).mergeSort
    (fun a b => dateLE b.date a.date)

/-- The writable fields of an activity update request (the `user` field is
read-only in the serializer and set by the view). -/
structure ActivityFields where
  activity_type : String
  duration : Nat
  distance : Option Nat
  calories_burned : Nat
  date : Date
deriving DecidableEq, Repr

/-- Embedding of the `ActivityViewSet.perform_update` body (`views.py` lines 80-84):
`serializer.save(user=self.request.user)` — the stored row takes the
submitted fields and the requester as owner. -/
def apply_update (a : Activity) (requester : Nat) (d : ActivityFields) :
    Activity :=
  { id := a.id, user := requester, activity_type := d.activity_type,
    duration := d.duration, distance := d.distance,
    calories_burned := d.calories_burned, date := d.date }

/-- A PUT/PATCH request on one activity: DRF checks
`has_object_permission` first (the `IsOwnerOrReadOnly` class on the
viewset, `views.py` line 49) and only then runs `perform_update`.  A denied
request leaves the table unchanged. -/
def update_activity (db : List Activity) (method : Method) (requester : Nat)
    (inst : Activity) (d : ActivityFields) : List Activity :=
  if has_object_permission method requester inst then
    db.map (fun a => if a.id == inst.id then apply_update a requester d else a)
  else db

/-- A DELETE request on one activity: DRF checks `has_object_permission`
first, then `ActivityViewSet.perform_destroy` (`views.py` lines 86-91)
re-checks `instance.user == request.user` before `instance.delete()`. -/
def destroy_activity (db : List Activity) (requester : Nat)
    (inst : Activity) : List Activity :=
  if has_object_permission .DELETE requester inst then
    if inst.user == requester then db.eraseP (fun a => a.id == inst.id)
    else db
  else db

/-! ## UserViewSet (`views.py` lines 25-40) -/

/-- The actions a `ModelViewSet` routes. -/
inductive ViewSetAction where
  | list | create | retrieve | update | patchUpdate | destroy
deriving DecidableEq, Repr

/-- Embedding of `UserViewSet.permission_classes = [permissions.IsAuthenticated]`
(`views.py` line 31).  There is no `get_permissions` override, so the same
check applies to every action, `create` (registration) included: the
request is permitted exactly when it is authenticated. -/
def user_viewset_has_permission (isAuthenticated : Bool)
    (a : ViewSetAction) : Bool :=
  match a with
  | _ => isAuthenticated

/-! ## ActivityViewSet.activity_metrics (`views.py` lines 93-129) -/

/-- Serial day number of a calendar date (days since 1970-01-01, negative
before), the standard days-from-civil computation; faithful for the years
Python's `date` supports (year ≥ 1, so every intermediate quantity is
non-negative). Subtracting a `timedelta(days=n)` from a date subtracts `n`
here, and `date` comparison agrees with comparison of day numbers. -/
def daysFromCivil (d : Date) : Int :=
  let y : Int := if d.month ≤ 2 then (d.year : Int) - 1 else (d.year : Int)
  let m : Int := d.month
  let dy : Int := d.day
  let era : Int := y / 400
  let yoe : Int := y - era * 400
  let doy : Int := (153 * (if 2 < m then m - 3 else m + 9) + 2) / 5 + dy - 1
  let doe : Int := yoe * 365 + yoe / 4 - yoe / 100 + doy
  era * 146097 + doe - 719468

/-- Python's `date.weekday()`: 0 = Monday … 6 = Sunday.  1970-01-01
(day number 0) was a Thursday, weekday 3. -/
def pyWeekday (d : Date) : Int :=
  (daysFromCivil d + 3) % 7

/-- Embedding of `today - timedelta(days=today.weekday())` (`views.py` line 108), as a
serial day number: the Monday of the week containing `today`. -/
def start_of_week (today : Date) : Int :=
  daysFromCivil today - pyWeekday today

/-- Embedding of `today.replace(day=1)` (`views.py` line 109). -/
def start_of_month (today : Date) : Date :=
  { today with day := 1 }

/-- The response dictionary of the metrics endpoint. -/
structure Metrics where
  total_duration : Nat
  total_distance : Nat
  total_calories_burned : Nat
  weekly_activities : Nat
  monthly_activities : Nat
deriving DecidableEq, Repr

/-- Embedding of `ActivityViewSet.activity_metrics` (`views.py` lines 93-129): over ALL
of the requesting user's activities — lifetime, no month scoping — sum the
durations (`or 0`), sum the distances after `.exclude(distance=None)`
(`or 0`), sum the calories (`or 0`); count the activities with
`date >= start_of_week` and with `date >= start_of_month`. -/
def activity_metrics (acts : List Activity) (user : Nat) (today : Date) :
    Metrics :=
  let mine := acts.filter (fun a => a.user == user)
  { total_duration := (mine.map (fun a => a.duration)).sum
    total_distance :=
      ((mine.filter (fun a => !a.distance.isNone)).filterMap
        (fun a => a.distance)).sum
    total_calories_burned := (mine.map (fun a => a.calories_burned)).sum
    weekly_activities :=
      (mine.filter (fun a => start_of_week today ≤ daysFromCivil a.date)).length
    monthly_activities :=
      (mine.filter (fun a => dateLE (start_of_month today) a.date)).length }

/-! ## LeaderboardViewSet.get_queryset (`views.py` lines 140-149) -/

/-- The three-key descending comparison of
`order_by('-total_activities', '-total_distance', '-total_calories_burned')`:
`x` sorts no later than `y` iff `x`'s key triple is lexicographically ≥
`y`'s. -/
def lbGE (x y : Leaderboard) : Bool :=
  y.total_activities < x.total_activities ||
    (y.total_activities == x.total_activities &&
      (y.total_distance < x.total_distance ||
        (y.total_distance == x.total_distance &&
          y.total_calories_burned ≤ x.total_calories_burned)))

/-- Embedding of `LeaderboardViewSet.get_queryset` (`views.py` lines 140-149): take
`month`/`year` from the query parameters, defaulting to the current month
and year; keep the rows with that month and year; order them descending by
total_activities, then total_distance, then total_calories_burned. -/
def leaderboard_get_queryset (lb : List Leaderboard)
    (qmonth qyear : Option Nat) (nowMonth nowYear : Nat) : List Leaderboard :=
  let month := qmonth.getD nowMonth
  let year := qyear.getD nowYear
  (lb.filter (fun r => r.month == month && r.year == year)).mergeSort lbGE

/-! ## Example data (spec section 8: user A's March 2024 activities) -/

/-- Running, 30 min, 5.00 km (500 hundredths), 300 cal, 2024-03-05. -/
def runningMar5 : Activity :=
  { id := 1, user := 0, activity_type := "Running", duration := 30,
    distance := some 500, calories_burned := 300, date := ⟨2024, 3, 5⟩ }

/-- Weightlifting, 45 min, no distance, 200 cal, 2024-03-10. -/
def weightliftingMar10 : Activity :=
  { id := 2, user := 0, activity_type := "Weightlifting", duration := 45,
    distance := none, calories_burned := 200, date := ⟨2024, 3, 10⟩ }

/-- The two-activity example table from the spec. -/
def exampleActivities : List Activity := [runningMar5, weightliftingMar10]

/-! ## Helper lemmas about `update_leaderboard` -/

/-- The row the aggregation step of `update_leaderboard` computes. -/
def recomputedRow (acts : List Activity) (user month year : Nat) : Leaderboard :=
  { user := user, month := month, year := year,
    total_activities := (acts.filter (matchesMonth user month year)).length,
    total_distance :=
      ((acts.filter (matchesMonth user month year)).filterMap
        (fun a => a.distance)).sum,
    total_calories_burned :=
      ((acts.filter (matchesMonth user month year)).map
        (fun a => a.calories_burned)).sum }

lemma keyMatch_recomputedRow (acts : List Activity) (u m y : Nat) :
    keyMatch u m y (recomputedRow acts u m y) = true := by
  simp [keyMatch, recomputedRow]

lemma keyMatch_eq_fields {u m y : Nat} {r : Leaderboard}
    (h : keyMatch u m y r = true) : r.user = u ∧ r.month = m ∧ r.year = y := by
  simp only [keyMatch, Bool.and_eq_true, beq_iff_eq] at h
  exact ⟨h.1.1, h.1.2, h.2⟩

lemma find?_map_of_key_invariant {g : Leaderboard → Leaderboard}
    {p : Leaderboard → Bool} (hg : ∀ r, p (g r) = p r) :
    ∀ l : List Leaderboard, (l.map g).find? p = (l.find? p).map g
  | [] => rfl
  | a :: l => by
    by_cases h : p a = true
    · rw [List.map_cons, List.find?_cons_of_pos _ ((hg a).trans h ▸ rfl),
        List.find?_cons_of_pos _ h]
      rfl
    · rw [List.map_cons, List.find?_cons_of_neg _ (by rw [hg]; exact h),
        List.find?_cons_of_neg _ h, find?_map_of_key_invariant hg l]

lemma update_leaderboard_find? (lb : List Leaderboard) (acts : List Activity)
    (u m y : Nat) :
    (update_leaderboard lb acts u m y).find? (keyMatch u m y)
      = some (recomputedRow acts u m y) := by
  unfold update_leaderboard
  split
  case isTrue h =>
    have hg : ∀ r : Leaderboard,
        keyMatch u m y (if keyMatch u m y r then
          { r with total_activities := (acts.filter (matchesMonth u m y)).length,
                   total_distance := ((acts.filter (matchesMonth u m y)).filterMap
                     (fun a => a.distance)).sum,
                   total_calories_burned := ((acts.filter (matchesMonth u m y)).map
                     (fun a => a.calories_burned)).sum }
          else r) = keyMatch u m y r := by
      intro r
      by_cases hr : keyMatch u m y r = true
      · simp only [hr, if_true]
        simpa [keyMatch] using hr
      · simp only [Bool.not_eq_true] at hr
        simp [hr]
    rw [find?_map_of_key_invariant hg]
    obtain ⟨r0, hr0mem, hr0⟩ := List.any_eq_true.mp h
    have hsome : ((lb.find? (keyMatch u m y)).isSome) = true :=
      List.find?_isSome.mpr ⟨r0, hr0mem, hr0⟩
    obtain ⟨a, ha⟩ := Option.isSome_iff_exists.mp hsome
    have hka : keyMatch u m y a = true := List.find?_some ha
    obtain ⟨h1, h2, h3⟩ := keyMatch_eq_fields hka
    rw [ha]
    simp only [Option.map_some', hka, if_true]
    congr 1
    simp [recomputedRow, h1, h2, h3]
  case isFalse h =>
    have hnone : lb.find? (keyMatch u m y) = none := by
      rw [List.find?_eq_none]
      intro x hx hk
      exact h (List.any_eq_true.mpr ⟨x, hx, hk⟩)
    rw [List.find?_append, hnone, Option.none_or,
      List.find?_cons_of_pos _ (by simp [keyMatch])]
    rfl

lemma sum_filterMap_distance :
    ∀ l : List Activity,
      (l.filterMap (fun a => a.distance)).sum
        = (l.map (fun a => a.distance.getD 0)).sum
  | [] => rfl
  | a :: l => by
    cases h : a.distance <;>
      simp [List.filterMap_cons, h, sum_filterMap_distance l]

lemma update_leaderboard_any_key (lb : List Leaderboard)
    (acts : List Activity) (u m y : Nat) :
    (update_leaderboard lb acts u m y).any (keyMatch u m y) = true := by
  have := update_leaderboard_find? lb acts u m y
  rw [List.any_eq_true]
  exact ⟨recomputedRow acts u m y, List.mem_of_find?_eq_some this,
    List.find?_some this⟩

lemma update_leaderboard_key_rows (lb : List Leaderboard)
    (acts : List Activity) (u m y : Nat) :
    ∀ r ∈ update_leaderboard lb acts u m y, keyMatch u m y r = true →
      r = recomputedRow acts u m y := by
  intro r hr hk
  unfold update_leaderboard at hr
  split at hr
  case isTrue h =>
    rw [List.mem_map] at hr
    obtain ⟨r0, hr0mem, hr0⟩ := hr
    by_cases h0 : keyMatch u m y r0 = true
    · rw [← hr0]
      simp only [h0, if_true]
      obtain ⟨h1, h2, h3⟩ := keyMatch_eq_fields h0
      simp [recomputedRow, h1, h2, h3]
    · rw [← hr0] at hk
      simp only [Bool.not_eq_true] at h0
      simp [h0] at hk
  case isFalse h =>
    rw [List.mem_append] at hr
    rcases hr with hr | hr
    · exact absurd (List.any_eq_true.mpr ⟨r, hr, hk⟩) h
    · simpa [recomputedRow] using List.mem_singleton.mp hr

lemma update_leaderboard_countP (lb : List Leaderboard)
    (acts : List Activity) (u m y : Nat) :
    (update_leaderboard lb acts u m y).countP (keyMatch u m y)
      = if lb.countP (keyMatch u m y) = 0 then 1
        else lb.countP (keyMatch u m y) := by
  unfold update_leaderboard
  split
  case isTrue h =>
    obtain ⟨r0, hr0mem, hr0⟩ := List.any_eq_true.mp h
    have hpos : 0 < lb.countP (keyMatch u m y) :=
      List.countP_pos_iff.mpr ⟨r0, hr0mem, hr0⟩
    rw [List.countP_map]
    rw [List.countP_congr (q := keyMatch u m y) ?_, if_neg (by omega)]
    intro x _
    constructor
    · intro hx
      by_cases h0 : keyMatch u m y x = true
      · exact h0
      · simp only [Function.comp_apply, Bool.not_eq_true] at hx h0
        rw [h0] at hx
        simp at hx
        exact hx
    · intro hx
      obtain ⟨h1, h2, h3⟩ := keyMatch_eq_fields hx
      simp [Function.comp_apply, hx, keyMatch, h1, h2, h3]
  case isFalse h =>
    have hz : lb.countP (keyMatch u m y) = 0 := by
      rw [List.countP_eq_zero]
      intro x hx hk
      exact h (List.any_eq_true.mpr ⟨x, hx, hk⟩)
    rw [List.countP_append, hz, if_pos rfl]
    simp [List.countP_cons, keyMatch]

/-- C1: for every owner, month and year, `update_leaderboard` stores a row
for the `(owner, month, year)` key whose `total_activities` is the count of
the owner's activities dated in that month/year, whose `total_distance` is
the sum of their distances treating an absent distance as 0, and whose
`total_calories_burned` is the sum of their calories; with no matching
activities it stores `(0, 0.00, 0)`, and on the spec's two-activity March
2024 example it stores `(2, 5.00 km, 500)`. -/
theorem recompute_stores_month_aggregates (lb : List Leaderboard)
    (acts : List Activity) (user month year : Nat) :
    (∃ r, (update_leaderboard lb acts user month year).find?
          (keyMatch user month year) = some r ∧
        r.total_activities = acts.countP (matchesMonth user month year) ∧
        r.total_distance = ((acts.filter (matchesMonth user month year)).map
          (fun a => a.distance.getD 0)).sum ∧
        r.total_calories_burned =
          ((acts.filter (matchesMonth user month year)).map
            (fun a => a.calories_burned)).sum) ∧
    update_leaderboard [] [] user month year =
      [{ user := user, month := month, year := year, total_activities := 0,
         total_distance := 0, total_calories_burned := 0 }] ∧
    update_leaderboard [] exampleActivities 0 3 2024 =
      [{ user := 0, month := 3, year := 2024, total_activities := 2,
         total_distance := 500, total_calories_burned := 500 }] := by
  refine ⟨⟨recomputedRow acts user month year,
    update_leaderboard_find? lb acts user month year, ?_, ?_, ?_⟩, rfl, rfl⟩
  · rw [recomputedRow, List.countP_eq_length_filter]
  · rw [recomputedRow, sum_filterMap_distance]
  · rfl

/-- C2: `update_leaderboard` is idempotent — with the `unique_together`
constraint in force (at most one stored row per `(owner, month, year)` key),
calling it twice with unchanged activities leaves the table exactly as
after the first call, and the table then holds exactly one row for that
key. -/
theorem recompute_idempotent (lb : List Leaderboard) (acts : List Activity)
    (user month year : Nat)
    (h : lb.countP (keyMatch user month year) ≤ 1) :
    update_leaderboard (update_leaderboard lb acts user month year) acts
        user month year
      = update_leaderboard lb acts user month year ∧
    (update_leaderboard lb acts user month year).countP
        (keyMatch user month year) = 1 := by
  constructor
  · conv =>
      lhs
      rw [update_leaderboard]
    rw [if_pos (update_leaderboard_any_key lb acts user month year)]
    have hid : ∀ r ∈ update_leaderboard lb acts user month year,
        (if keyMatch user month year r then
          { r with
            total_activities :=
              (acts.filter (matchesMonth user month year)).length,
            total_distance :=
              ((acts.filter (matchesMonth user month year)).filterMap
                (fun a => a.distance)).sum,
            total_calories_burned :=
              ((acts.filter (matchesMonth user month year)).map
                (fun a => a.calories_burned)).sum }
         else r) = id r := by
      intro r hr
      by_cases hk : keyMatch user month year r = true
      · have := update_leaderboard_key_rows lb acts user month year r hr hk
        rw [if_pos hk, id_eq, this]
        rfl
      · rw [if_neg hk, id_eq]
    rw [List.map_congr_left hid, List.map_id]
  · rw [update_leaderboard_countP]
    split
    · rfl
    · omega

/-- Witness for C2: idempotence at the spec's example table, starting from
an empty leaderboard. -/
theorem recompute_idempotent_witness :
    update_leaderboard (update_leaderboard [] exampleActivities 0 3 2024)
        exampleActivities 0 3 2024
      = update_leaderboard [] exampleActivities 0 3 2024 ∧
    (update_leaderboard [] exampleActivities 0 3 2024).countP
        (keyMatch 0 3 2024) = 1 :=
  recompute_idempotent [] exampleActivities 0 3 2024 (by decide)

/-- C3: activity validation fails whenever the kind is distance-based
(Running, Cycling, Swimming, Walking) and no distance is supplied; succeeds
without a distance for Weightlifting when the other required fields are
present; and fails whenever activity_type, duration or date is missing. -/
theorem activity_validation_distance_rule (data : ActivityPayload) :
    (isDistanceBased data.activity_type = true → data.distance = none →
      isValidationError (validate data) = true) ∧
    (data.activity_type = some "Weightlifting" → data.duration.isSome = true →
      data.date.isSome = true → validate data = .ok data) ∧
    (data.activity_type = none → isValidationError (validate data) = true) ∧
    (data.duration = none → isValidationError (validate data) = true) ∧
    (data.date = none → isValidationError (validate data) = true) := by
  refine ⟨?_, ?_, ?_, ?_, ?_⟩
  · intro h1 h2
    unfold validate
    by_cases f1 : falsyStr data.activity_type
    · rw [if_pos f1]; rfl
    · by_cases f2 : data.duration.isNone
      · rw [if_neg f1, if_pos f2]; rfl
      · by_cases f3 : data.date.isNone
        · rw [if_neg f1, if_neg f2, if_pos f3]; rfl
        · rw [if_neg f1, if_neg f2, if_neg f3, if_pos (by simp [h1, h2])]
          rfl
  · intro h1 h2 h3
    obtain ⟨d, hd⟩ := Option.isSome_iff_exists.mp h2
    obtain ⟨dt, hdt⟩ := Option.isSome_iff_exists.mp h3
    unfold validate
    rw [if_neg (by rw [h1]; decide), if_neg (by simp [hd]),
      if_neg (by simp [hdt]), if_neg (by rw [h1]; simp [isDistanceBased])]
  · intro h1
    unfold validate
    rw [if_pos (by simp [falsyStr, h1])]
    rfl
  · intro h1
    unfold validate
    by_cases f1 : falsyStr data.activity_type
    · rw [if_pos f1]; rfl
    · rw [if_neg f1, if_pos (by simp [h1])]; rfl
  · intro h1
    unfold validate
    by_cases f1 : falsyStr data.activity_type
    · rw [if_pos f1]; rfl
    · by_cases f2 : data.duration.isNone
      · rw [if_neg f1, if_pos f2]; rfl
      · rw [if_neg f1, if_neg f2, if_pos (by simp [h1])]; rfl

/-- Witness for C3: Running without distance is rejected; Weightlifting
without distance is accepted; payloads missing activity_type, duration or
date are rejected. -/
theorem activity_validation_distance_rule_witness :
    isValidationError (validate
      ⟨some "Running", some 30, none, some 300, some ⟨2024, 3, 5⟩⟩) = true ∧
    validate ⟨some "Weightlifting", some 45, none, some 200, some ⟨2024, 3, 10⟩⟩
      = .ok ⟨some "Weightlifting", some 45, none, some 200, some ⟨2024, 3, 10⟩⟩ ∧
    isValidationError (validate
      ⟨none, some 30, some 500, some 300, some ⟨2024, 3, 5⟩⟩) = true ∧
    isValidationError (validate
      ⟨some "Running", none, some 500, some 300, some ⟨2024, 3, 5⟩⟩) = true ∧
    isValidationError (validate
      ⟨some "Running", some 30, some 500, some 300, none⟩) = true :=
  ⟨(activity_validation_distance_rule _).1 (by decide) rfl,
   (activity_validation_distance_rule _).2.1 rfl (by decide) (by decide),
   (activity_validation_distance_rule _).2.2.1 rfl,
   (activity_validation_distance_rule _).2.2.2.1 rfl,
   (activity_validation_distance_rule _).2.2.2.2 rfl⟩

/-- C10: `validate` inspects only the submitted payload, so a partial
update (PATCH) whose payload omits activity_type, duration or date is
rejected with a validation error even though the stored row has them, and
a partial update that resends all three (with a distance value) passes
validation. -/
theorem patch_must_resend_fields (data : ActivityPayload)
    (t : String) (d x : Nat) (c : Option Nat) (dt : Date) :
    (data.activity_type = none → isValidationError (validate data) = true) ∧
    (data.duration = none → isValidationError (validate data) = true) ∧
    (data.date = none → isValidationError (validate data) = true) ∧
    (t.isEmpty = false →
      validate ⟨some t, some d, some x, c, some dt⟩
        = .ok ⟨some t, some d, some x, c, some dt⟩) := by
  refine ⟨?_, ?_, ?_, ?_⟩
  · intro h1
    unfold validate
    rw [if_pos (by simp [falsyStr, h1])]
    rfl
  · intro h1
    unfold validate
    by_cases f1 : falsyStr data.activity_type
    · rw [if_pos f1]; rfl
    · rw [if_neg f1, if_pos (by simp [h1])]; rfl
  · intro h1
    unfold validate
    by_cases f1 : falsyStr data.activity_type
    · rw [if_pos f1]; rfl
    · by_cases f2 : data.duration.isNone
      · rw [if_neg f1, if_pos f2]; rfl
      · rw [if_neg f1, if_neg f2, if_pos (by simp [h1])]; rfl
  · intro ht
    unfold validate
    rw [if_neg (by simp [falsyStr, ht]), if_neg (by simp),
      if_neg (by simp), if_neg (by simp)]

/-- Witness for C10: a PATCH payload that omits the date (resending only
kind, duration and distance) is rejected; resending all required fields
passes. -/
theorem patch_must_resend_fields_witness :
    isValidationError (validate
      ⟨some "Running", some 30, some 500, some 300, none⟩) = true ∧
    isValidationError (validate
      ⟨none, none, some 500, some 300, some ⟨2024, 3, 5⟩⟩) = true ∧
    validate ⟨some "Running", some 30, some 500, some 300, some ⟨2024, 3, 5⟩⟩
      = .ok ⟨some "Running", some 30, some 500, some 300, some ⟨2024, 3, 5⟩⟩ :=
  ⟨(patch_must_resend_fields
      ⟨some "Running", some 30, some 500, some 300, none⟩
      "Running" 30 500 (some 300) ⟨2024, 3, 5⟩).2.2.1 rfl,
   (patch_must_resend_fields
      ⟨none, none, some 500, some 300, some ⟨2024, 3, 5⟩⟩
      "Running" 30 500 (some 300) ⟨2024, 3, 5⟩).1 rfl,
   (patch_must_resend_fields
      ⟨some "Running", some 30, some 500, some 300, some ⟨2024, 3, 5⟩⟩
      "Running" 30 500 (some 300) ⟨2024, 3, 5⟩).2.2.2 (by decide)⟩

/-! ## Ordering lemmas for the two sorts -/

lemma dateLE_trans {a b c : Date} (h1 : dateLE a b = true)
    (h2 : dateLE b c = true) : dateLE a c = true := by
  simp only [dateLE, Bool.or_eq_true, Bool.and_eq_true, decide_eq_true_eq,
    beq_iff_eq] at h1 h2 ⊢
  omega

lemma dateLE_total (a b : Date) : (dateLE a b || dateLE b a) = true := by
  simp only [dateLE, Bool.or_eq_true, Bool.and_eq_true, decide_eq_true_eq,
    beq_iff_eq]
  omega

lemma byDateDesc_trans (a b c : Activity)
    (h1 : dateLE b.date a.date = true) (h2 : dateLE c.date b.date = true) :
    dateLE c.date a.date = true :=
  dateLE_trans h2 h1

lemma byDateDesc_total (a b : Activity) :
    (dateLE b.date a.date || dateLE a.date b.date) = true :=
  dateLE_total b.date a.date

lemma lbGE_trans (a b c : Leaderboard) (h1 : lbGE a b = true)
    (h2 : lbGE b c = true) : lbGE a c = true := by
  simp only [lbGE, Bool.or_eq_true, Bool.and_eq_true, decide_eq_true_eq,
    beq_iff_eq] at h1 h2 ⊢
  omega

lemma lbGE_total (a b : Leaderboard) : (lbGE a b || lbGE b a) = true := by
  simp only [lbGE, Bool.or_eq_true, Bool.and_eq_true, decide_eq_true_eq,
    beq_iff_eq]
  omega

/-- Every element the activity queryset returns comes from the base
owner-scoped filter. -/
lemma mem_activity_get_queryset_user {acts : List Activity}
    {requester : Nat} {activity_type : Option String}
    {start_date end_date : Option Date} {a : Activity}
    (ha : a ∈ activity_get_queryset acts requester activity_type
      start_date end_date) : a.user = requester := by
  have base : ∀ l : List Activity,
      a ∈ l.filter (fun x => x.user == requester) → a.user = requester := by
    intro l h
    exact beq_iff_eq.mp (List.mem_filter.mp h).2
  rcases activity_type with _ | t <;> rcases start_date with _ | s <;>
    rcases end_date with _ | e <;>
    simp only [activity_get_queryset] at ha
  · exact base _ ha
  · exact base _ ha
  · exact base _ ha
  · exact base _ (List.mem_filter.mp ha).1
  · by_cases he : t.isEmpty <;> simp only [he, if_true, if_false] at ha
    · exact base _ ha
    · exact base _ (List.mem_filter.mp ha).1
  · by_cases he : t.isEmpty <;> simp only [he, if_true, if_false] at ha
    · exact base _ ha
    · exact base _ (List.mem_filter.mp ha).1
  · by_cases he : t.isEmpty <;> simp only [he, if_true, if_false] at ha
    · exact base _ ha
    · exact base _ (List.mem_filter.mp ha).1
  · by_cases he : t.isEmpty <;> simp only [he, if_true, if_false] at ha
    · exact base _ (List.mem_filter.mp ha).1
    · exact base _ (List.mem_filter.mp (List.mem_filter.mp ha).1).1

/-- C4: under every combination of the optional kind and date-range
filters, the activity list contains only activities owned by the
requesting identity, and its default order is descending by date. -/
theorem activity_list_owner_only_sorted (acts : List Activity)
    (requester : Nat) (activity_type : Option String)
    (start_date end_date : Option Date) :
    (∀ a ∈ activity_list acts requester activity_type start_date end_date,
      a.user = requester) ∧
    List.Pairwise (fun x y => dateLE y.date x.date = true)
      (activity_list acts requester activity_type start_date end_date) := by
  constructor
  · intro a ha
    rw [activity_list, List.mem_mergeSort] at ha
    exact mem_activity_get_queryset_user ha
  · exact List.sorted_mergeSort byDateDesc_trans byDateDesc_total _

/-- Witness for C4: on the example table the list for user 0 contains the
running activity (owned by 0) and is sorted descending by date. -/
theorem activity_list_owner_only_sorted_witness :
    runningMar5.user = 0 ∧
    List.Pairwise (fun x y => dateLE y.date x.date = true)
      (activity_list exampleActivities 0 none none none) :=
  ⟨(activity_list_owner_only_sorted exampleActivities 0 none none none).1
      runningMar5 (by rw [activity_list, List.mem_mergeSort]; decide),
   (activity_list_owner_only_sorted exampleActivities 0 none none none).2⟩

/-- C5: a PUT, PATCH or DELETE by an identity that does not own the
activity is denied by the object permission check, and the activity table
is left unchanged — in particular ownership is never reassigned to the
requester. -/
theorem non_owner_write_rejected (db : List Activity) (requester : Nat)
    (inst : Activity) (d : ActivityFields) (h : inst.user ≠ requester) :
    has_object_permission .PUT requester inst = false ∧
    has_object_permission .PATCH requester inst = false ∧
    has_object_permission .DELETE requester inst = false ∧
    update_activity db .PUT requester inst d = db ∧
    update_activity db .PATCH requester inst d = db ∧
    destroy_activity db requester inst = db := by
  have hb : (inst.user == requester) = false := beq_eq_false_iff_ne.mpr h
  have hput : has_object_permission .PUT requester inst = false := by
    simp [has_object_permission, isSafeMethod, hb]
  have hpatch : has_object_permission .PATCH requester inst = false := by
    simp [has_object_permission, isSafeMethod, hb]
  have hdel : has_object_permission .DELETE requester inst = false := by
    simp [has_object_permission, isSafeMethod, hb]
  refine ⟨hput, hpatch, hdel, ?_, ?_, ?_⟩
  · rw [update_activity, hput]
    simp
  · rw [update_activity, hpatch]
    simp
  · rw [destroy_activity, hdel]
    simp

/-- Witness for C5: user 1 cannot modify or delete user 0's running
activity. -/
theorem non_owner_write_rejected_witness :
    has_object_permission .PUT 1 runningMar5 = false ∧
    has_object_permission .PATCH 1 runningMar5 = false ∧
    has_object_permission .DELETE 1 runningMar5 = false ∧
    update_activity exampleActivities .PUT 1 runningMar5
        ⟨"Running", 10, some 100, 50, ⟨2024, 3, 6⟩⟩ = exampleActivities ∧
    update_activity exampleActivities .PATCH 1 runningMar5
        ⟨"Running", 10, some 100, 50, ⟨2024, 3, 6⟩⟩ = exampleActivities ∧
    destroy_activity exampleActivities 1 runningMar5 = exampleActivities :=
  non_owner_write_rejected exampleActivities 1 runningMar5
    ⟨"Running", 10, some 100, 50, ⟨2024, 3, 6⟩⟩ (by decide)

/-- C6: the leaderboard read view returns exactly the rows whose month and
year equal the query parameters (defaulting to the current month and year
when a parameter is absent) — stated both as a permutation of the filtered
table and as a membership characterisation — sorted descending by
total_activities, ties broken descending by total_distance, remaining ties
by total_calories_burned (lexicographic three-key descending order). -/
theorem leaderboard_view_filtered_sorted (lb : List Leaderboard)
    (qmonth qyear : Option Nat) (nowMonth nowYear : Nat) :
    (leaderboard_get_queryset lb qmonth qyear nowMonth nowYear).Perm
      (lb.filter (fun r => r.month == qmonth.getD nowMonth &&
        r.year == qyear.getD nowYear)) ∧
    (∀ r, r ∈ leaderboard_get_queryset lb qmonth qyear nowMonth nowYear ↔
      r ∈ lb ∧ r.month = qmonth.getD nowMonth ∧
        r.year = qyear.getD nowYear) ∧
    List.Pairwise (fun x y => lbGE x y = true)
      (leaderboard_get_queryset lb qmonth qyear nowMonth nowYear) := by
  refine ⟨List.mergeSort_perm _ _, ?_,
    List.sorted_mergeSort lbGE_trans lbGE_total _⟩
  intro r
  rw [leaderboard_get_queryset, List.mem_mergeSort, List.mem_filter]
  simp [and_assoc]

/-- Witness for C6: with an explicit month parameter and a default year,
the single March 2024 row is returned and the result is sorted. -/
theorem leaderboard_view_filtered_sorted_witness :
    ((⟨0, 3, 2024, 2, 500, 500⟩ : Leaderboard) ∈
      leaderboard_get_queryset [⟨0, 3, 2024, 2, 500, 500⟩] (some 3) none
        7 2024) ∧
    List.Pairwise (fun x y => lbGE x y = true)
      (leaderboard_get_queryset [⟨0, 3, 2024, 2, 500, 500⟩] (some 3) none
        7 2024) :=
  ⟨((leaderboard_view_filtered_sorted [⟨0, 3, 2024, 2, 500, 500⟩] (some 3)
      none 7 2024).2.1 ⟨0, 3, 2024, 2, 500, 500⟩).mpr
      (by refine ⟨?_, rfl, rfl⟩; exact List.mem_singleton.mpr rfl),
   (leaderboard_view_filtered_sorted [⟨0, 3, 2024, 2, 500, 500⟩] (some 3)
      none 7 2024).2.2⟩

lemma sum_distance_present (l : List Activity) :
    ((l.filter (fun a => !a.distance.isNone)).filterMap
      (fun a => a.distance)).sum
      = ((l.filter (fun a => a.distance.isSome)).map
          (fun a => a.distance.getD 0)).sum := by
  have hf : (fun a : Activity => !a.distance.isNone)
      = (fun a : Activity => a.distance.isSome) := by
    funext a
    cases a.distance <;> rfl
  rw [hf]
  induction l with
  | nil => rfl
  | cons a l ih =>
    cases h : a.distance <;>
      simp [List.filter_cons, h, List.filterMap_cons, ih]

/-- C7: the metrics endpoint returns the total duration, calories and
distance over ALL of the requesting user's activities — lifetime, with the
distance summed only over rows whose distance is present — plus the count
of activities dated on or after the Monday of the current week and the
count dated on or after the first of the current month; for a user with no
activities every value is 0 (and the computation is total, so no error is
raised). -/
theorem activity_metrics_lifetime_aggregates (acts : List Activity)
    (user : Nat) (today : Date) :
    (activity_metrics acts user today).total_duration
      = ((acts.filter (fun a => a.user == user)).map
          (fun a => a.duration)).sum ∧
    (activity_metrics acts user today).total_distance
      = ((acts.filter (fun a => a.user == user && a.distance.isSome)).map
          (fun a => a.distance.getD 0)).sum ∧
    (activity_metrics acts user today).total_calories_burned
      = ((acts.filter (fun a => a.user == user)).map
          (fun a => a.calories_burned)).sum ∧
    (activity_metrics acts user today).weekly_activities
      = (acts.filter (fun a => a.user == user)).countP
          (fun a => start_of_week today ≤ daysFromCivil a.date) ∧
    (activity_metrics acts user today).monthly_activities
      = (acts.filter (fun a => a.user == user)).countP
          (fun a => dateLE (start_of_month today) a.date) ∧
    (start_of_week today + 3) % 7 = 0 ∧
    start_of_week today ≤ daysFromCivil today ∧
    daysFromCivil today < start_of_week today + 7 ∧
    start_of_month today = ⟨today.year, today.month, 1⟩ ∧
    activity_metrics [] user today = ⟨0, 0, 0, 0, 0⟩ := by
  refine ⟨rfl, ?_, rfl, ?_, ?_, ?_, ?_, ?_, rfl, rfl⟩
  · show ((((acts.filter (fun a => a.user == user)).filter
        (fun a => !a.distance.isNone)).filterMap (fun a => a.distance)).sum) = _
    rw [sum_distance_present, List.filter_filter,
      List.filter_congr
        (fun a _ => Bool.and_comm a.distance.isSome (a.user == user))]
  · rw [List.countP_eq_length_filter]
    rfl
  · rw [List.countP_eq_length_filter]
    rfl
  · unfold start_of_week pyWeekday
    omega
  · unfold start_of_week pyWeekday
    omega
  · unfold start_of_week pyWeekday
    omega

/-- C8: the claim says registration (POST /users) requires no
authentication, but `UserViewSet` sets
`permission_classes = [permissions.IsAuthenticated]` with no per-action
override, so the permission check applies to the `create` action too: an
unauthenticated registration request is denied (and an authenticated one is
allowed).  This evaluates the code's permission policy at the failing
input. -/
theorem user_registration_requires_authentication :
    user_viewset_has_permission false .create = false ∧
    user_viewset_has_permission true .create = true :=
  ⟨rfl, rfl⟩

/-- C9: the date-range filter of the activity list is applied only when
both `start_date` and `end_date` are supplied; with exactly one of them
present the queryset is identical to the one with neither, and with both
present it is the unrestricted queryset filtered by the inclusive range. -/
theorem date_filter_requires_both_bounds (acts : List Activity)
    (requester : Nat) (activity_type : Option String) (s e : Date) :
    activity_get_queryset acts requester activity_type (some s) none
      = activity_get_queryset acts requester activity_type none none ∧
    activity_get_queryset acts requester activity_type none (some e)
      = activity_get_queryset acts requester activity_type none none ∧
    activity_get_queryset acts requester activity_type (some s) (some e)
      = (activity_get_queryset acts requester activity_type none none).filter
          (fun a => dateLE s a.date && dateLE a.date e) := by
  refine ⟨?_, ?_, ?_⟩ <;> rcases activity_type with _ | t <;> rfl
